import Mathlib

/-!
Verification development for the EMR-Containers task-state compiler
(`aws-stepfunctions-tasks/lib/emrcontainers`): a shallow embedding of
`EmrContainersStartJobRun` (constructor validation, `_renderTask`,
`createPolicyStatements`) and `EmrContainersCreateVirtualCluster`,
together with theorems settling the frozen claims about them.
-/

namespace EmrContainers

/-!
## JavaScript value model

A `sfn.TaskInput`'s `.value` is an arbitrary JavaScript value.  Following the
design notes of the spec, a runtime-resolved reference (an encoded JSON path)
is a distinct variant from a literal string, so that "the compiler cannot
inspect resolved-at-runtime values" is explicit in the type.  An object field
holding `none` models a key whose value is the JavaScript `undefined`.
-/

inductive JSVal where
  | str (s : String)
  | jsonPath (p : String)
  | bool (b : Bool)
  | num (n : Int)
  | arr (xs : List JSVal)
  | obj (fields : List (String × Option JSVal))

/-- Modelled from the spec: `sfn.JsonPath.isEncodedJsonPath` from
`@aws-cdk/aws-stepfunctions` (not under `src/`).  Per the spec, a
runtime-resolved reference is "an opaque path string" distinct from every
literal, so the predicate recognises exactly the `jsonPath` variant. -/
def isEncodedJsonPath : JSVal → Bool
  | .jsonPath _ => true
  | _ => false

/-- The JavaScript `typeof`-style tag of a value (a `jsonPath` is carried as a
string at runtime). -/
def jsTypeName : JSVal → String
  | .str _ => "string"
  | .jsonPath _ => "string"
  | .bool _ => "boolean"
  | .num _ => "number"
  | .arr _ => "object"
  | .obj _ => "object"

/-- The JavaScript `.length` property: defined for strings (character count)
and arrays (element count), `undefined` (`none`) for every other value. -/
def jsLength : JSVal → Option Nat
  | .str s => some s.length
  | .jsonPath p => some p.length
  | .arr xs => some xs.length
  | _ => none

/-- JavaScript `x.length > n`: false when `.length` is `undefined`. -/
def jsLengthGt (v : JSVal) (n : Nat) : Bool :=
  match jsLength v with
  | some m => decide (n < m)
  | none => false

/-- JavaScript `x.length < n`: false when `.length` is `undefined`. -/
def jsLengthLt (v : JSVal) (n : Nat) : Bool :=
  match jsLength v with
  | some m => decide (m < n)
  | none => false

/-- How JavaScript string interpolation renders `x.length`. -/
def jsLengthStr (v : JSVal) : String :=
  match jsLength v with
  | some m => toString m
  | none => "undefined"

mutual
/-- Modelled from the spec: the "serialized size" of a literal value — the
character count of its JSON serialization — which the spec says the
`entryPointArguments` bound measures. -/
def serializedSize : JSVal → Nat
  | .str s => s.length + 2
  | .jsonPath p => p.length + 2
  | .bool b => cond b 4 5
  | .num n => (toString n).length
  | .arr xs => 2 + serializedSeqSize xs
  | .obj fs => 2 + serializedFieldsSize fs

/-- Serialized size of the comma-separated elements of an array. -/
def serializedSeqSize : List JSVal → Nat
  | [] => 0
  | [v] => serializedSize v
  | v :: vs => serializedSize v + 1 + serializedSeqSize vs

/-- Serialized size of the fields of an object (`undefined` fields dropped). -/
def serializedFieldsSize : List (String × Option JSVal) → Nat
  | [] => 0
  | (_, none) :: fs => serializedFieldsSize fs
  | (k, some v) :: fs => k.length + 3 + serializedSize v + serializedFieldsSize fs
end

/-!
## Rendered wire values

`sfn.FieldUtils.renderObject` produces a plain JSON document: no `undefined`
fields and no unresolved reference variants remain.
-/

inductive JsonV where
  | str (s : String)
  | bool (b : Bool)
  | num (n : Int)
  | arr (xs : List JsonV)
  | obj (fields : List (String × JsonV))

/-- Key lookup in a rendered object (`none` on non-objects). -/
def JsonV.lookupKey : JsonV → String → Option JsonV
  | .obj fields, k => lookupField fields k
  | _, _ => none
where
  /-- First binding of `k` in an association list of rendered fields. -/
  lookupField : List (String × JsonV) → String → Option JsonV
    | [], _ => none
    | (k', v) :: fs, k => if k' = k then some v else lookupField fs k

/-- Modelled from the spec: the key-suffix convention of
`sfn.FieldUtils.renderObject` (not under `src/`) — a field holding a
runtime-resolved reference is emitted under an alternate key name signalling
"resolve at execution time" to the downstream consumer. -/
def jsonKey (k : String) (v : JSVal) : String :=
  if isEncodedJsonPath v then k ++ ".$" else k

mutual
/-- Modelled from the spec: `sfn.FieldUtils.renderObject` from
`@aws-cdk/aws-stepfunctions` (not under `src/`).  Absent (`undefined`)
optional fields are omitted entirely from the output — never rendered as
null or empty — and runtime-resolved references are rendered under the
suffixed key with their opaque path string as the value. -/
def renderObject : JSVal → JsonV
  | .str s => .str s
  | .jsonPath p => .str p
  | .bool b => .bool b
  | .num n => .num n
  | .arr xs => .arr (renderSeq xs)
  | .obj fs => .obj (renderFields fs)

/-- Render every element of an array. -/
def renderSeq : List JSVal → List JsonV
  | [] => []
  | v :: vs => renderObject v :: renderSeq vs

/-- Render the fields of an object, dropping `undefined` ones. -/
def renderFields : List (String × Option JSVal) → List (String × JsonV)
  | [] => []
  | (_, none) :: fs => renderFields fs
  | (k, some v) :: fs => (jsonKey k v, renderObject v) :: renderFields fs
end

/-!
## Integration patterns and the pattern gate
-/

/-- `sfn.IntegrationPattern` (string enum from `@aws-cdk/aws-stepfunctions`). -/
inductive IntegrationPattern where
  | REQUEST_RESPONSE
  | RUN_JOB
  | WAIT_FOR_TASK_TOKEN
deriving DecidableEq

/-- The string value of each `IntegrationPattern` enum member. -/
def IntegrationPattern.label : IntegrationPattern → String
  | .REQUEST_RESPONSE => "REQUEST_RESPONSE"
  | .RUN_JOB => "RUN_JOB"
  | .WAIT_FOR_TASK_TOKEN => "WAIT_FOR_TASK_TOKEN"

/-- The unsupported-mode error message: the supported set as a comma-joined
enumeration, then the received value. -/
def unsupportedPatternMsg (pattern : IntegrationPattern)
    (supported : List IntegrationPattern) : String :=
  "Unsupported service integration pattern. Supported Patterns: "
    ++ String.intercalate "," (supported.map IntegrationPattern.label)
    ++ ". Received: " ++ pattern.label

/-- Modelled from the spec: `validatePatternSupported` from
`../private/task-utils` (not under `src/`).  Fails with the unsupported-mode
error listing the supported set and the received value when the requested
mode is not in the task type's supported set; succeeds otherwise. -/
def validatePatternSupported (pattern : IntegrationPattern)
    (supported : List IntegrationPattern) : Except String Unit :=
  if supported.contains pattern then .ok () else
    .error (unsupportedPatternMsg pattern supported)

/-!
## The StartJobRun specification (`EmrContainersStartJobRunProps`)

Cloud resources are modelled by the attribute the compiler reads from them:
an `iam.IRole` by its `roleArn`, a `logs.ILogGroup` by its `logGroupName`,
an `s3.IBucket` by its object URL.  A `sfn.TaskInput` is modelled by its
`.value`.
-/

structure Role where
  roleArn : String
deriving DecidableEq

/-- `SparkSubmitJobDriver`: `entryPoint` and `entryPointArguments` are task
inputs (their `.value` recorded), `sparkSubmitParameters` a plain string. -/
structure SparkSubmitJobDriver where
  entryPoint : JSVal
  entryPointArguments : Option JSVal
  sparkSubmitParameters : Option String

structure JobDriver where
  sparkSubmitJobDriver : Option SparkSubmitJobDriver

/-- `ApplicationConfiguration`: a classification (recorded by its
`classificationStatement`), optional nested configurations and an optional
insertion-ordered property mapping. -/
inductive ApplicationConfiguration where
  | mk (classificationStatement : String)
       (nestedConfig : Option (List ApplicationConfiguration))
       (properties : Option (List (String × String)))

/-- The `nestedConfig` field of a configuration node. -/
def ApplicationConfiguration.nestedConfig : ApplicationConfiguration →
    Option (List ApplicationConfiguration)
  | .mk _ n _ => n

/-- The `properties` field of a configuration node. -/
def ApplicationConfiguration.properties : ApplicationConfiguration →
    Option (List (String × String))
  | .mk _ _ p => p

/-- The `Monitoring` options. -/
structure Monitoring where
  logging : Option Bool
  logGroup : Option String
  /-- The source's log-stream-name prefix option (the field rendered under
  the wire key `LogStreamNamePrefix`). -/
  logStreamNameStart : Option String
  logBucket : Option String
  persistentAppUI : Option Bool
deriving DecidableEq

/-- `EmrContainersStartJobRunProps` (with `integrationPattern` inherited from
`sfn.TaskStateBaseProps`); `tags` is an insertion-ordered mapping. -/
structure EmrContainersStartJobRunProps where
  virtualClusterId : JSVal
  jobName : Option String
  executionRole : Option Role
  releaseLabel : String
  applicationConfig : Option (List ApplicationConfiguration)
  jobDriver : JobDriver
  monitoring : Option Monitoring
  tags : Option (List (String × String))
  integrationPattern : Option IntegrationPattern

/-!
## Constraint validators (the constructor's checks, in source order)
-/

/-- The supported integration patterns of `EmrContainersStartJobRun`. -/
def SUPPORTED_INTEGRATION_PATTERNS : List IntegrationPattern :=
  [.REQUEST_RESPONSE, .RUN_JOB]

/-- The entry-point length error message. -/
def entryPointLengthMsg (received : String) : String :=
  "Entry point must be between 1 and 256 characters in length. Received "
    ++ received ++ "."

/-- The constructor's `entryPoint` check: a literal value whose `.length` is
over 256 or under 1 is rejected; an encoded JSON path is not inspected. -/
def validateEntryPoint (props : EmrContainersStartJobRunProps) :
    Except String Unit :=
  match props.jobDriver.sparkSubmitJobDriver with
  | none => .ok ()
  | some d =>
    if !isEncodedJsonPath d.entryPoint
        && (jsLengthGt d.entryPoint 256 || jsLengthLt d.entryPoint 1) then
      .error (entryPointLengthMsg (jsLengthStr d.entryPoint))
    else .ok ()

/-- The entry-point-arguments type error message. -/
def entryPointArgumentsTypeMsg (received : String) : String :=
  "Entry point arguments must be a string array. Received " ++ received

/-- `isArrayOfStrings`: `Array.isArray(value) && value.every(item => typeof
item === 'string')`. -/
def isArrayOfStrings : JSVal → Bool
  | .arr xs => xs.all fun v => jsTypeName v == "string"
  | _ => false

/-- The constructor's `entryPointArguments` type check.  The thrown message
interpolates the task input's `type` tag (an enum of the missing
`@aws-cdk/aws-stepfunctions` code), modelled here by the value's type name. -/
def validateEntryPointArgumentsType (props : EmrContainersStartJobRunProps) :
    Except String Unit :=
  match props.jobDriver.sparkSubmitJobDriver with
  | none => .ok ()
  | some d =>
    match d.entryPointArguments with
    | none => .ok ()
    | some v =>
      if isArrayOfStrings v == false && !isEncodedJsonPath v then
        .error (entryPointArgumentsTypeMsg (jsTypeName v))
      else .ok ()

/-- The entry-point-arguments length error message. -/
def entryPointArgumentsLengthMsg (received : String) : String :=
  "Entry point arguments must be an string array between 1 and 10280 in length. Received "
    ++ received ++ "."

/-- The constructor's `entryPointArguments` length check: `.value.length`
(for an array, its element count) must lie in [1, 10280] unless the value is
an encoded JSON path. -/
def validateEntryPointArgumentsLength
    (props : EmrContainersStartJobRunProps) : Except String Unit :=
  match props.jobDriver.sparkSubmitJobDriver with
  | none => .ok ()
  | some d =>
    match d.entryPointArguments with
    | none => .ok ()
    | some v =>
      if (jsLengthGt v 10280 || jsLengthLt v 1) && !isEncodedJsonPath v then
        .error (entryPointArgumentsLengthMsg (jsLengthStr v))
      else .ok ()

/-- The spark-submit-parameters length error message. -/
def sparkSubmitParametersLengthMsg (received : String) : String :=
  "Spark submit parameters must be between 1 and 102400 characters in length. Received "
    ++ received ++ "."

/-- The constructor's `sparkSubmitParameters` check: character length in
[1, 102400]. -/
def validateSparkSubmitParameters
    (props : EmrContainersStartJobRunProps) : Except String Unit :=
  match props.jobDriver.sparkSubmitJobDriver with
  | none => .ok ()
  | some d =>
    match d.sparkSubmitParameters with
    | none => .ok ()
    | some s =>
      if decide (102400 < s.length) || decide (s.length < 1) then
        .error (sparkSubmitParametersLengthMsg (toString s.length))
      else .ok ()

/-- The missing-execution-role error message. -/
def missingExecutionRoleMsg : String :=
  "Execution role cannot be undefined when the virtual cluster ID is not a concrete value. Provide an execution role with the correct trust policy"

/-- The constructor's execution-role check: a missing role together with a
runtime-resolved virtual cluster id is rejected. -/
def validateExecutionRole (props : EmrContainersStartJobRunProps) :
    Except String Unit :=
  if props.executionRole.isNone && isEncodedJsonPath props.virtualClusterId then
    .error missingExecutionRoleMsg
  else .ok ()

/-- The application-configuration array length error message (the source
interpolates `config.length`, the entry count). -/
def appConfigArrayLengthMsg (received : Nat) : String :=
  "Application configuration array must have 100 or fewer entries. Received "
    ++ toString received

/-- The application-configuration properties length error message.  The
source interpolates `appConfig.properties.length`: a property access on a
plain JavaScript object, which yields `undefined`, so the thrown message
reads "undefined" rather than the entry count. -/
def appConfigPropertiesLengthMsg : String :=
  "Application configuration properties must have 100 or fewer entries. Received undefined"

/-- `validateAppConfigPropertiesLength`: a node's property mapping must have
at most 100 entries (`Object.keys(...).length`). -/
def validateAppConfigPropertiesLength (appConfig : ApplicationConfiguration) :
    Except String Unit :=
  match appConfig.properties with
  | none => .ok ()
  | some ps =>
    if decide (100 < ps.length) then .error appConfigPropertiesLengthMsg
    else .ok ()

mutual
/-- `validateAppConfigLength`: a configuration list must have at most 100
entries at every level; each node's properties are checked, then each node's
nested list, recursively.  A thrown error propagates out of the `forEach`
loops immediately. -/
def validateAppConfigLength (config : Option (List ApplicationConfiguration)) :
    Except String Unit :=
  match config with
  | none => .ok ()
  | some cfg =>
    if decide (100 < cfg.length) then
      .error (appConfigArrayLengthMsg cfg.length)
    else do
      validateEachProperties cfg
      validateEachNested cfg

/-- The first `forEach`: check every node's property mapping. -/
def validateEachProperties (cfg : List ApplicationConfiguration) :
    Except String Unit :=
  match cfg with
  | [] => .ok ()
  | c :: cs => do
    validateAppConfigPropertiesLength c
    validateEachProperties cs

/-- The second `forEach`: recurse into every node's nested list. -/
def validateEachNested (cfg : List ApplicationConfiguration) :
    Except String Unit :=
  match cfg with
  | [] => .ok ()
  | .mk _ nested _ :: cs => do
    validateAppConfigLength nested
    validateEachNested cs
end

/-!
## Stack context and derived construct-tree values

The constructor reads a few values off the enclosing CDK stack and off
resources it provisions itself (`cdk.Stack.of(this)`, the automatically
generated job execution role, log group and bucket).  These are modelled by
an ambient context record holding the attributes the compiler reads.
-/

structure StackContext where
  partition : String
  region : String
  account : String
  /-- `roleArn` of the role `createJobExecutionRole` provisions. -/
  generatedRoleArn : String
  /-- `logGroupName` of the log group `new logs.LogGroup(this, ...)` creates. -/
  generatedLogGroupName : String
  /-- `s3UrlForObject()` of the bucket `new s3.Bucket(this, ...)` creates. -/
  generatedLogBucketUri : String

/-- `cdk.Stack.of(this).formatArn({service, resource, resourceName})`. -/
def formatArn (ctx : StackContext) (service resource resourceName : String) :
    String :=
  "arn:" ++ ctx.partition ++ ":" ++ service ++ ":" ++ ctx.region ++ ":"
    ++ ctx.account ++ ":" ++ resource ++ "/" ++ resourceName

/-- The string a virtual-cluster-id task-input value contributes to an ARN or
parameter (the source only supplies strings or encoded JSON paths here). -/
def jsString : JSVal → String
  | .str s => s
  | .jsonPath p => p
  | _ => ""

/-- `this.role`: the caller-supplied execution role, or else the
automatically generated job execution role. -/
def roleOf (ctx : StackContext) (props : EmrContainersStartJobRunProps) :
    Role :=
  props.executionRole.getD ⟨ctx.generatedRoleArn⟩

/-- `this.logGroup`.  In the source, `??` binds tighter than the conditional:
`monitoring?.logGroup ?? monitoring?.logging ? new LogGroup(...) : undefined`
creates a fresh log group whenever `monitoring.logGroup` is supplied or
`monitoring.logging` is true, and is `undefined` otherwise. -/
def logGroupOf (ctx : StackContext) (props : EmrContainersStartJobRunProps) :
    Option String :=
  match props.monitoring with
  | none => none
  | some m =>
    if m.logGroup.isSome || m.logging == some true then
      some ctx.generatedLogGroupName
    else none

/-- `this.logBucket`: same shape as `logGroupOf`, for the S3 bucket. -/
def logBucketOf (ctx : StackContext) (props : EmrContainersStartJobRunProps) :
    Option String :=
  match props.monitoring with
  | none => none
  | some m =>
    if m.logBucket.isSome || m.logging == some true then
      some ctx.generatedLogBucketUri
    else none

/-!
## Policy Deriver (`createPolicyStatements`)
-/

/-- An IAM policy statement: resource patterns, actions, and an optional
condition mapping (operator, then key/value pairs). -/
structure PolicyStatement where
  resources : List String
  actions : List String
  conditions : List (String × List (String × String))
deriving DecidableEq

/-- `createPolicyStatements`: always a statement permitting
`emr-containers:StartJobRun`, scoped to the virtual cluster (or to a
wildcard when the id is a runtime-resolved reference), conditioned on the
execution-role ARN; for `RUN_JOB` only, an appended statement permitting
`emr-containers:DescribeJobRun` and `emr-containers:CancelJobRun` on the
cluster's job runs (again wildcarded for a runtime-resolved id). -/
def createPolicyStatements (ctx : StackContext) (role : Role)
    (virtualClusterId : JSVal) (integrationPattern : IntegrationPattern) :
    List PolicyStatement :=
  let policyStatements : List PolicyStatement :=
    [{ resources := [formatArn ctx "emr-containers" "/virtualclusters"
         (if isEncodedJsonPath virtualClusterId then "*"
          else jsString virtualClusterId)]
       actions := ["emr-containers:StartJobRun"]
       conditions := [("StringEquals",
         [("emr-containers:ExecutionRoleArn", role.roleArn)])] }]
  if integrationPattern = .RUN_JOB then
    policyStatements ++
      [{ resources := [formatArn ctx "emr-containers" "/virtualclusters"
           (if isEncodedJsonPath virtualClusterId then "*"
            else jsString virtualClusterId ++ "/jobruns/*")]
         actions := ["emr-containers:DescribeJobRun",
                     "emr-containers:CancelJobRun"]
         conditions := [] }]
  else policyStatements

/-!
## The constructor (`EmrContainersStartJobRun`)
-/

/-- The fields of a successfully constructed `EmrContainersStartJobRun` that
the compiler's outputs read. -/
structure EmrContainersStartJobRun where
  integrationPattern : IntegrationPattern
  role : Role
  logGroup : Option String
  logBucket : Option String
  taskPolicies : List PolicyStatement

/-- The record the constructor produces once every check has passed. -/
def buildTask (ctx : StackContext) (props : EmrContainersStartJobRunProps)
    (integrationPattern : IntegrationPattern) : EmrContainersStartJobRun :=
  { integrationPattern := integrationPattern
    role := roleOf ctx props
    logGroup := logGroupOf ctx props
    logBucket := logBucketOf ctx props
    taskPolicies := createPolicyStatements ctx (roleOf ctx props)
      props.virtualClusterId integrationPattern }

/-- The `EmrContainersStartJobRun` constructor: the integration-pattern gate
(default `RUN_JOB`), then the field-level checks in source order, then the
derived fields.  A thrown error aborts construction. -/
def mkEmrContainersStartJobRun (ctx : StackContext)
    (props : EmrContainersStartJobRunProps) :
    Except String EmrContainersStartJobRun := do
  let integrationPattern := props.integrationPattern.getD .RUN_JOB
  validatePatternSupported integrationPattern SUPPORTED_INTEGRATION_PATTERNS
  if props.applicationConfig.isSome then
    validateAppConfigLength props.applicationConfig
  validateEntryPoint props
  validateEntryPointArgumentsType props
  validateEntryPointArgumentsLength props
  validateSparkSubmitParameters props
  validateExecutionRole props
  pure (buildTask ctx props integrationPattern)

/-!
## Task Renderer (`_renderTask`)
-/

/-- Modelled from the spec: `integrationResourceArn` from
`../private/task-utils` (not under `src/`) — the resource locator template:
the execution mode appended as a suffix token for the synchronous and
callback modes, omitted for fire-and-forget. -/
def integrationResourceArn (service api : String)
    (integrationPattern : IntegrationPattern) : String :=
  "arn:aws:states:::" ++ service ++ ":" ++ api ++
    (match integrationPattern with
     | .REQUEST_RESPONSE => ""
     | .RUN_JOB => ".sync"
     | .WAIT_FOR_TASK_TOKEN => ".waitForTaskToken")

/-- `renderTags`: `{ Tags: Object.keys(tags).map((key) => ({ Key: key,
Value: tags[key] })) }` — the pairs in the mapping's insertion order,
wrapped in an object under an inner `Tags` key. -/
def renderTags (tags : Option (List (String × String))) : JSVal :=
  match tags with
  | none => .obj []
  | some ts => .obj [("Tags", some (.arr (ts.map fun kv =>
      .obj [("Key", some (.str kv.1)), ("Value", some (.str kv.2))])))]

/-- `cdk.objectToCloudFormation` on a string-to-string property mapping. -/
def propertiesToJson (ps : List (String × String)) : JSVal :=
  .obj (ps.map fun kv => (kv.1, some (.str kv.2)))

mutual
/-- `applicationConfigPropertyToJson`: one configuration node as JSON
(`Classification` always, `Properties` and `Configurations` only when
present). -/
def applicationConfigPropertyToJson : ApplicationConfiguration → JSVal
  | .mk classificationStatement nested properties =>
    .obj [("Classification", some (.str classificationStatement)),
          ("Properties", properties.map propertiesToJson),
          ("Configurations",
            match nested with
            | none => none
            | some l => some (.arr (applicationConfigListToJson l)))]

/-- `cdk.listMapper(applicationConfigPropertyToJson)` on a present list. -/
def applicationConfigListToJson : List ApplicationConfiguration → List JSVal
  | [] => []
  | c :: cs => applicationConfigPropertyToJson c :: applicationConfigListToJson cs
end

/-- The object literal handed to `sfn.FieldUtils.renderObject` in
`_renderTask` (field holding `none` ≙ a key whose value is `undefined`). -/
def taskParametersRaw (ctx : StackContext)
    (props : EmrContainersStartJobRunProps) : JSVal :=
  .obj [
    ("VirtualClusterId", some props.virtualClusterId),
    ("Name", props.jobName.map .str),
    ("ExecutionRoleArn", some (.str (roleOf ctx props).roleArn)),
    ("ReleaseLabel", some (.str props.releaseLabel)),
    ("JobDriver", some (.obj [
      ("SparkSubmitJobDriver", some (.obj [
        ("EntryPoint",
          props.jobDriver.sparkSubmitJobDriver.map (·.entryPoint)),
        ("EntryPointArguments",
          props.jobDriver.sparkSubmitJobDriver.bind (·.entryPointArguments)),
        ("SparkSubmitParameters",
          (props.jobDriver.sparkSubmitJobDriver.bind
            (·.sparkSubmitParameters)).map .str)]))])),
    ("ConfigurationOverrides", some (.obj [
      ("ApplicationConfiguration",
        match props.applicationConfig with
        | none => none
        | some l => some (.arr (applicationConfigListToJson l))),
      ("MonitoringConfiguration", some (.obj [
        ("CloudWatchMonitoringConfiguration",
          match logGroupOf ctx props with
          | none => none
          | some g => some (.obj [
              ("LogGroupName", some (.str g)),
              ("LogStreamNamePrefix",
                (props.monitoring.bind (·.logStreamNameStart)).map .str)])),
        ("PersistentAppUI", some (.str
          (if props.monitoring.bind (·.persistentAppUI) = some false then
            "DISABLED" else "ENABLED"))),
        ("S3MonitoringConfiguration",
          match logBucketOf ctx props with
          | none => none
          | some b => some (.obj [("LogUri", some (.str b))]))])),
      ("Tags",
        if props.tags.isSome then some (renderTags props.tags) else none)]))]

/-- The rendered `Parameters` mapping of the wire document. -/
def startJobRunParameters (ctx : StackContext)
    (props : EmrContainersStartJobRunProps) : JsonV :=
  renderObject (taskParametersRaw ctx props)

/-- `_renderTask`: the wire document of the task state. -/
def renderTask (ctx : StackContext) (props : EmrContainersStartJobRunProps)
    (integrationPattern : IntegrationPattern) : JsonV :=
  .obj [
    ("Resource", .str (integrationResourceArn "emr-containers" "startJobRun"
      integrationPattern)),
    ("Parameters", startJobRunParameters ctx props)]

/-!
## `EmrContainersCreateVirtualCluster`
-/

/-- `EmrContainersCreateVirtualClusterProps` (with `integrationPattern`
inherited from `sfn.TaskStateBaseProps`); the EKS cluster is recorded by its
`clusterName`. -/
structure EmrContainersCreateVirtualClusterProps where
  eksCluster : String
  eksNamespace : Option String
  virtuaClusterName : Option String
  tags : Option (List (String × String))
  integrationPattern : Option IntegrationPattern

/-- The supported integration patterns of `EmrContainersCreateVirtualCluster`. -/
def CREATE_VIRTUAL_CLUSTER_SUPPORTED_PATTERNS : List IntegrationPattern :=
  [.REQUEST_RESPONSE]

/-- `createPolicyStatements` of `EmrContainersCreateVirtualCluster`: a
wildcard-scoped statement permitting `emr-containers:CreateVirtualCluster`
and a service-linked-role statement gated on the EMR Containers service
principal. -/
def createVirtualClusterPolicyStatements (ctx : StackContext) :
    List PolicyStatement :=
  [{ resources := ["*"]
     actions := ["emr-containers:CreateVirtualCluster"]
     conditions := [] },
   { resources := ["arn:" ++ ctx.partition ++ ":iam::" ++ ctx.account
       ++ ":role/aws-service-role/emr-containers.amazonaws.com/AWSServiceRoleForAmazonEMRContainers"]
     actions := ["iam:CreateServiceLinkedRole"]
     conditions := [("StringLike",
       [("iam:AWSServiceName", "emr-containers.amazonaws.com")])] }]

/-- The `EmrContainersCreateVirtualCluster` constructor: the
integration-pattern gate (default `REQUEST_RESPONSE`), then the policy
statements; it performs no field-level validation. -/
def mkEmrContainersCreateVirtualCluster (ctx : StackContext)
    (props : EmrContainersCreateVirtualClusterProps) :
    Except String (List PolicyStatement) := do
  let integrationPattern := props.integrationPattern.getD .REQUEST_RESPONSE
  validatePatternSupported integrationPattern
    CREATE_VIRTUAL_CLUSTER_SUPPORTED_PATTERNS
  pure (createVirtualClusterPolicyStatements ctx)

/-!
## Concrete example inputs
-/

/-- A concrete stack context. -/
def exampleCtx : StackContext :=
  { partition := "aws"
    region := "us-east-1"
    account := "123456789012"
    generatedRoleArn := "arn:aws:iam::123456789012:role/Job-Execution-Role"
    generatedLogGroupName := "MonitoringLogGroup"
    generatedLogBucketUri := "s3://monitoring-bucket" }

/-- A concrete caller-supplied execution role. -/
def exampleRole : Role := ⟨"arn:aws:iam::123456789012:role/CallerRole"⟩

/-- A minimal valid specification: literal cluster id, a caller-supplied
role, a literal entry point, every optional field absent. -/
def exampleProps : EmrContainersStartJobRunProps :=
  { virtualClusterId := .str "x01f27i9a7cv1td52keaktr6j"
    jobName := none
    executionRole := some exampleRole
    releaseLabel := "emr-6.2.0-latest"
    applicationConfig := none
    jobDriver := ⟨some ⟨.str "job.py", none, none⟩⟩
    monitoring := none
    tags := none
    integrationPattern := some .RUN_JOB }

/-- `exampleProps` with an empty-array `entryPointArguments` value. -/
def emptyArgsProps : EmrContainersStartJobRunProps :=
  { exampleProps with jobDriver := ⟨some ⟨.str "job.py", some (.arr []), none⟩⟩ }

/-- `exampleProps` with a non-array `entryPointArguments` value. -/
def badTypeArgsProps : EmrContainersStartJobRunProps :=
  { exampleProps with
      jobDriver := ⟨some ⟨.str "job.py", some (.str "oops"), none⟩⟩ }

/-- `exampleProps` with a one-element string-array `entryPointArguments`. -/
def oneArgProps : EmrContainersStartJobRunProps :=
  { exampleProps with
      jobDriver := ⟨some ⟨.str "job.py", some (.arr [.str "a"]), none⟩⟩ }

/-- An unsupported requested mode together with several invalid fields: an
empty literal entry point, and a missing execution role with a
runtime-resolved cluster id. -/
def waitTokenProps : EmrContainersStartJobRunProps :=
  { exampleProps with
      integrationPattern := some .WAIT_FOR_TASK_TOKEN
      executionRole := none
      virtualClusterId := .jsonPath "$.ClusterId"
      jobDriver := ⟨some ⟨.str "", none, none⟩⟩ }

/-- Execution role absent, runtime-resolved cluster id, and an invalid
(empty) literal entry point. -/
def missingRoleBadEntryProps : EmrContainersStartJobRunProps :=
  { exampleProps with
      executionRole := none
      virtualClusterId := .jsonPath "$.ClusterId"
      jobDriver := ⟨some ⟨.str "", none, none⟩⟩ }

/-- Execution role absent with a runtime-resolved cluster id, all other
fields valid. -/
def missingRoleProps : EmrContainersStartJobRunProps :=
  { exampleProps with
      executionRole := none
      virtualClusterId := .jsonPath "$.ClusterId" }

/-- `exampleProps` without a caller-supplied execution role (the cluster id
stays literal, so the role is automatically generated). -/
def autoRoleProps : EmrContainersStartJobRunProps :=
  { exampleProps with executionRole := none }

/-- `exampleProps` with two tags (to exhibit insertion order). -/
def taggedProps : EmrContainersStartJobRunProps :=
  { exampleProps with tags := some [("team", "data"), ("env", "prod")] }

/-- A property mapping with 101 entries. -/
def manyProperties : List (String × String) :=
  (List.range 101).map fun i => (toString i, "v")

/-- A configuration list with 101 sibling nodes. -/
def manyConfigs : List ApplicationConfiguration :=
  List.replicate 101 (.mk "spark" none none)

/-- A single node whose property mapping has 101 entries. -/
def overPropsConfig : List ApplicationConfiguration :=
  [.mk "spark-defaults" none (some manyProperties)]

/-- A single top-level node whose nested list has 101 siblings: the size
violation sits one level below the top. -/
def overNestedConfig : List ApplicationConfiguration :=
  [.mk "spark" (some manyConfigs) none]

/-- The second (monitoring) policy statement of a `RUN_JOB` task with a
runtime-resolved cluster id, under `exampleCtx`. -/
def exampleWildcardStatement : PolicyStatement :=
  { resources := [formatArn exampleCtx "emr-containers" "/virtualclusters" "*"]
    actions := ["emr-containers:DescribeJobRun", "emr-containers:CancelJobRun"]
    conditions := [] }

/-!
## Helper lemmas
-/

/-- Binding an error short-circuits. -/
theorem error_bind {α β : Type} (e : String) (f : α → Except String β) :
    (Except.error e >>= f : Except String β) = .error e := rfl

/-- Binding a success applies the continuation. -/
theorem ok_bind {α β : Type} (a : α) (f : α → Except String β) :
    (Except.ok a >>= f : Except String β) = f a := rfl

/-- Inversion of a successful bind. -/
theorem bind_ok_inv {α β : Type} {x : Except String α}
    {f : α → Except String β} {b : β} (h : (x >>= f) = .ok b) :
    ∃ a, x = .ok a ∧ f a = .ok b := by
  cases x with
  | error e => rw [error_bind] at h; exact absurd h (by simp)
  | ok a => exact ⟨a, rfl, by rw [ok_bind] at h; exact h⟩

/-- A bound computation errors whenever each success of its first stage
leads the continuation to an error. -/
theorem chain_error {β : Type} {x : Except String Unit}
    {f : Unit → Except String β}
    (h : ∀ u, x = .ok u → ∃ e, f u = .error e) :
    ∃ e, (x >>= f) = .error e := by
  cases x with
  | error e => exact ⟨e, rfl⟩
  | ok u => rw [ok_bind]; exact h u rfl

/-- A successfully constructed task is exactly the record built from the
derived fields. -/
theorem mkStartJobRun_ok_inv {ctx : StackContext}
    {props : EmrContainersStartJobRunProps}
    {task : EmrContainersStartJobRun}
    (h : mkEmrContainersStartJobRun ctx props = .ok task) :
    task = buildTask ctx props (props.integrationPattern.getD .RUN_JOB) := by
  simp only [mkEmrContainersStartJobRun] at h
  obtain ⟨u1, h1, h⟩ := bind_ok_inv h
  by_cases hac : props.applicationConfig.isSome = true
  · rw [if_pos hac] at h
    obtain ⟨u2, h2, h⟩ := bind_ok_inv h
    obtain ⟨u3, h3, h⟩ := bind_ok_inv h
    obtain ⟨u4, h4, h⟩ := bind_ok_inv h
    obtain ⟨u5, h5, h⟩ := bind_ok_inv h
    obtain ⟨u6, h6, h⟩ := bind_ok_inv h
    obtain ⟨u7, h7, h⟩ := bind_ok_inv h
    simp only [pure, Except.pure] at h
    exact (Except.ok.inj h).symm
  · rw [if_neg hac] at h
    obtain ⟨u2, h2, h⟩ := bind_ok_inv h
    obtain ⟨u3, h3, h⟩ := bind_ok_inv h
    obtain ⟨u4, h4, h⟩ := bind_ok_inv h
    obtain ⟨u5, h5, h⟩ := bind_ok_inv h
    obtain ⟨u6, h6, h⟩ := bind_ok_inv h
    obtain ⟨u7, h7, h⟩ := bind_ok_inv h
    simp only [pure, Except.pure] at h
    exact (Except.ok.inj h).symm

/-- Rendering the raw tag-pair array yields the tag-pair array. -/
theorem renderSeq_tag_pairs (ts : List (String × String)) :
    renderSeq (ts.map fun kv =>
        JSVal.obj [("Key", some (.str kv.1)), ("Value", some (.str kv.2))]) =
      ts.map fun kv =>
        JsonV.obj [("Key", .str kv.1), ("Value", .str kv.2)] := by
  induction ts with
  | nil => rfl
  | cons kv ts ih =>
    simp [renderSeq, renderObject, renderFields, jsonKey, isEncodedJsonPath, ih]

/-- A JSON-path variant is an encoded JSON path. -/
theorem isEncodedJsonPath_jsonPath (p : String) :
    isEncodedJsonPath (.jsonPath p) = true := rfl

/-- Claim C1 (amended): for every stack context, role and virtual-cluster-id
value, `createPolicyStatements` with the fire-and-forget
(`REQUEST_RESPONSE`) mode returns exactly one statement, permitting the
primary action `emr-containers:StartJobRun`; with the synchronous
(`RUN_JOB`) mode it returns that primary statement followed by exactly one
additional statement permitting both the status-check action
(`emr-containers:DescribeJobRun`) and the cancellation action
(`emr-containers:CancelJobRun`) on the same (possibly wildcarded) cluster
resource scope. -/
theorem c1_policy_statements_per_mode (ctx : StackContext) (role : Role)
    (v : JSVal) :
    createPolicyStatements ctx role v .REQUEST_RESPONSE =
      [{ resources := [formatArn ctx "emr-containers" "/virtualclusters"
           (if isEncodedJsonPath v then "*" else jsString v)]
         actions := ["emr-containers:StartJobRun"]
         conditions := [("StringEquals",
           [("emr-containers:ExecutionRoleArn", role.roleArn)])] }] ∧
    createPolicyStatements ctx role v .RUN_JOB =
      [{ resources := [formatArn ctx "emr-containers" "/virtualclusters"
           (if isEncodedJsonPath v then "*" else jsString v)]
         actions := ["emr-containers:StartJobRun"]
         conditions := [("StringEquals",
           [("emr-containers:ExecutionRoleArn", role.roleArn)])] },
       { resources := [formatArn ctx "emr-containers" "/virtualclusters"
           (if isEncodedJsonPath v then "*" else jsString v ++ "/jobruns/*")]
         actions := ["emr-containers:DescribeJobRun",
                     "emr-containers:CancelJobRun"]
         conditions := [] }] :=
  ⟨rfl, rfl⟩

/-- Claim C1, counterexample: with the synchronous (`RUN_JOB`) mode the
derived list has two statements, not the three (primary plus two
additional) the claim asserts. -/
theorem c1_counterexample :
    (createPolicyStatements exampleCtx exampleRole
        (.str "x01f27i9a7cv1td52keaktr6j") .RUN_JOB).length = 2 ∧
    ¬ (createPolicyStatements exampleCtx exampleRole
        (.str "x01f27i9a7cv1td52keaktr6j") .RUN_JOB).length = 3 := by
  refine ⟨rfl, fun h => ?_⟩
  have h2 : (createPolicyStatements exampleCtx exampleRole
      (.str "x01f27i9a7cv1td52keaktr6j") .RUN_JOB).length = 2 := rfl
  omega

/-- Claim C9: if the virtual-cluster id is a runtime-resolved reference,
every statement returned by `createPolicyStatements` carries the
wildcard-scoped resource pattern; if the id is a literal, the primary
(first) statement's resource pattern is scoped to that literal id. -/
theorem c9_resource_scoping :
    (∀ (ctx : StackContext) (role : Role) (p : String)
        (integrationPattern : IntegrationPattern) (st : PolicyStatement),
      st ∈ createPolicyStatements ctx role (.jsonPath p) integrationPattern →
      st.resources = [formatArn ctx "emr-containers" "/virtualclusters" "*"]) ∧
    (∀ (ctx : StackContext) (role : Role) (s : String)
        (integrationPattern : IntegrationPattern),
      (createPolicyStatements ctx role (.str s)
          integrationPattern).head?.map (·.resources) =
        some [formatArn ctx "emr-containers" "/virtualclusters" s]) := by
  constructor
  · intro ctx role p pat st hmem
    cases pat with
    | REQUEST_RESPONSE =>
      simp [createPolicyStatements, isEncodedJsonPath] at hmem
      rw [hmem]
    | RUN_JOB =>
      simp [createPolicyStatements, isEncodedJsonPath] at hmem
      rcases hmem with h | h <;> rw [h]
    | WAIT_FOR_TASK_TOKEN =>
      simp [createPolicyStatements, isEncodedJsonPath] at hmem
      rw [hmem]
  · intro ctx role s pat
    cases pat <;> rfl

/-- Claim C9, witness: under the concrete context, with the runtime
reference `$.ClusterId` and the synchronous mode, the monitoring statement
(a member of the derived list) is wildcard-scoped. -/
theorem c9_witness :
    exampleWildcardStatement.resources =
      [formatArn exampleCtx "emr-containers" "/virtualclusters" "*"] :=
  c9_resource_scoping.1 exampleCtx exampleRole "$.ClusterId" .RUN_JOB
    exampleWildcardStatement (by decide)

/-- Claim C5: a requested execution mode outside the task type's supported
set makes the construction fail with the unsupported-mode error, whatever
the other fields hold — for `EmrContainersStartJobRun` (supported:
`REQUEST_RESPONSE`, `RUN_JOB`) and for `EmrContainersCreateVirtualCluster`
(supported: `REQUEST_RESPONSE`), whose gate runs before any field-level
check. -/
theorem c5_unsupported_mode_precedence :
    (∀ (ctx : StackContext) (props : EmrContainersStartJobRunProps),
      SUPPORTED_INTEGRATION_PATTERNS.contains
          (props.integrationPattern.getD .RUN_JOB) = false →
      mkEmrContainersStartJobRun ctx props =
        .error (unsupportedPatternMsg
          (props.integrationPattern.getD .RUN_JOB)
          SUPPORTED_INTEGRATION_PATTERNS)) ∧
    (∀ (ctx : StackContext) (props : EmrContainersCreateVirtualClusterProps),
      CREATE_VIRTUAL_CLUSTER_SUPPORTED_PATTERNS.contains
          (props.integrationPattern.getD .REQUEST_RESPONSE) = false →
      mkEmrContainersCreateVirtualCluster ctx props =
        .error (unsupportedPatternMsg
          (props.integrationPattern.getD .REQUEST_RESPONSE)
          CREATE_VIRTUAL_CLUSTER_SUPPORTED_PATTERNS)) := by
  constructor
  · intro ctx props h
    simp only [mkEmrContainersStartJobRun, validatePatternSupported, h,
      Bool.false_eq_true, if_false, error_bind]
  · intro ctx props h
    simp only [mkEmrContainersCreateVirtualCluster, validatePatternSupported,
      h, Bool.false_eq_true, if_false, error_bind]

/-- Claim C5, witness: `WAIT_FOR_TASK_TOKEN` is rejected with the
unsupported-mode error even though the same specification also has an empty
literal entry point and a missing execution role with a runtime-resolved
cluster id. -/
theorem c5_witness :
    mkEmrContainersStartJobRun exampleCtx waitTokenProps =
      .error (unsupportedPatternMsg .WAIT_FOR_TASK_TOKEN
        SUPPORTED_INTEGRATION_PATTERNS) :=
  c5_unsupported_mode_precedence.1 exampleCtx waitTokenProps rfl

/-- Claim C6: for a present literal-string entry point, the entry-point
check succeeds exactly when the string's length lies in [1, 256] and fails
with the length error exactly when the length is 0 or above 256; a
runtime-resolved entry point is always accepted without bound-checking. -/
theorem c6_entry_point_length :
    (∀ (props : EmrContainersStartJobRunProps) (d : SparkSubmitJobDriver)
        (s : String),
      props.jobDriver.sparkSubmitJobDriver = some d →
      d.entryPoint = .str s →
      ((validateEntryPoint props = .ok ()) ↔
        (1 ≤ s.length ∧ s.length ≤ 256)) ∧
      ((validateEntryPoint props =
          .error (entryPointLengthMsg (toString s.length))) ↔
        (s.length = 0 ∨ 256 < s.length))) ∧
    (∀ (props : EmrContainersStartJobRunProps) (d : SparkSubmitJobDriver)
        (p : String),
      props.jobDriver.sparkSubmitJobDriver = some d →
      d.entryPoint = .jsonPath p →
      validateEntryPoint props = .ok ()) := by
  constructor
  · intro props d s hd he
    simp only [validateEntryPoint, hd, he, isEncodedJsonPath, jsLengthGt,
      jsLengthLt, jsLength, jsLengthStr, Bool.not_false, Bool.true_and,
      Bool.or_eq_true, decide_eq_true_eq]
    constructor
    · by_cases hc : 256 < s.length ∨ s.length < 1 <;> simp [hc] <;> omega
    · by_cases hc : 256 < s.length ∨ s.length < 1 <;> simp [hc] <;> omega
  · intro props d p hd he
    simp [validateEntryPoint, hd, he, isEncodedJsonPath]

/-- Claim C6, witness: the concrete literal entry point `job.py` (length 6)
passes the check. -/
theorem c6_witness : validateEntryPoint exampleProps = .ok () :=
  (c6_entry_point_length.1 exampleProps ⟨.str "job.py", none, none⟩ "job.py"
    rfl rfl).1.mpr (by decide)

/-- Claim C10: every successfully constructed task's first (primary) policy
statement permits `emr-containers:StartJobRun` and carries the
`StringEquals` condition binding `emr-containers:ExecutionRoleArn` to the
task's execution-role ARN — the caller-supplied role when one was given,
the automatically generated one otherwise. -/
theorem c10_primary_statement_condition :
    ∀ (ctx : StackContext) (props : EmrContainersStartJobRunProps)
      (task : EmrContainersStartJobRun),
      mkEmrContainersStartJobRun ctx props = .ok task →
      task.role = props.executionRole.getD ⟨ctx.generatedRoleArn⟩ ∧
      task.taskPolicies.head?.map (·.actions) =
        some ["emr-containers:StartJobRun"] ∧
      task.taskPolicies.head?.map (·.conditions) =
        some [("StringEquals",
          [("emr-containers:ExecutionRoleArn", task.role.roleArn)])] := by
  intro ctx props task h
  have htask := mkStartJobRun_ok_inv h
  subst htask
  refine ⟨rfl, ?_, ?_⟩ <;>
    cases props.integrationPattern.getD .RUN_JOB <;> rfl

/-- Claim C10, witness: the condition binds the caller-supplied role's ARN
for `exampleProps`, and the automatically generated role for the same
specification without a caller-supplied role. -/
theorem c10_witness :
    ((buildTask exampleCtx exampleProps .RUN_JOB).taskPolicies.head?.map
        (·.conditions) =
      some [("StringEquals", [("emr-containers:ExecutionRoleArn",
        (buildTask exampleCtx exampleProps .RUN_JOB).role.roleArn)])]) ∧
    (buildTask exampleCtx autoRoleProps .RUN_JOB).role =
      ⟨exampleCtx.generatedRoleArn⟩ :=
  ⟨(c10_primary_statement_condition exampleCtx exampleProps _ rfl).2.2,
   (c10_primary_statement_condition exampleCtx autoRoleProps _ rfl).1⟩

/-- Claim C7 (amended): with the execution role absent and a
runtime-resolved cluster id, the execution-role check always fails with the
missing-execution-role error, and construction always fails — though when
an earlier field-level check also fails, the reported error is that earlier
one, not the missing-execution-role error; if the cluster id is a literal
or a role is supplied, the execution-role check passes. -/
theorem c7_missing_execution_role :
    (∀ (props : EmrContainersStartJobRunProps),
      props.executionRole = none →
      isEncodedJsonPath props.virtualClusterId = true →
      validateExecutionRole props = .error missingExecutionRoleMsg) ∧
    (∀ (props : EmrContainersStartJobRunProps),
      props.executionRole.isSome = true ∨
        isEncodedJsonPath props.virtualClusterId = false →
      validateExecutionRole props = .ok ()) ∧
    (∀ (ctx : StackContext) (props : EmrContainersStartJobRunProps),
      props.executionRole = none →
      isEncodedJsonPath props.virtualClusterId = true →
      ∃ e, mkEmrContainersStartJobRun ctx props = .error e) := by
  refine ⟨?_, ?_, ?_⟩
  · intro props h1 h2
    simp [validateExecutionRole, h1, h2]
  · intro props h
    unfold validateExecutionRole
    rcases h with h | h
    · cases hrole : props.executionRole with
      | none => rw [hrole] at h; simp at h
      | some r => simp [hrole]
    · simp [h]
  · intro ctx props h1 h2
    have hrole : validateExecutionRole props = .error missingExecutionRoleMsg := by
      simp [validateExecutionRole, h1, h2]
    simp only [mkEmrContainersStartJobRun]
    apply chain_error; intro u _
    by_cases hac : props.applicationConfig.isSome = true
    · rw [if_pos hac]
      apply chain_error; intro u _
      apply chain_error; intro u _
      apply chain_error; intro u _
      apply chain_error; intro u _
      apply chain_error; intro u _
      exact ⟨missingExecutionRoleMsg, by rw [hrole]; rfl⟩
    · rw [if_neg hac]
      apply chain_error; intro u _
      apply chain_error; intro u _
      apply chain_error; intro u _
      apply chain_error; intro u _
      apply chain_error; intro u _
      exact ⟨missingExecutionRoleMsg, by rw [hrole]; rfl⟩

/-- Claim C7, counterexample: with the execution role absent and the
runtime-resolved cluster id `$.ClusterId` but an empty literal entry point,
construction fails with the entry-point length error — not the
missing-execution-role error the claim promises regardless of other
fields. -/
theorem c7_counterexample :
    missingRoleBadEntryProps.executionRole = none ∧
    isEncodedJsonPath missingRoleBadEntryProps.virtualClusterId = true ∧
    mkEmrContainersStartJobRun exampleCtx missingRoleBadEntryProps =
      .error (entryPointLengthMsg "0") ∧
    entryPointLengthMsg "0" ≠ missingExecutionRoleMsg := by
  exact ⟨rfl, rfl, rfl, by decide⟩

/-- Claim C7, witness: with every other field valid, the missing role and
runtime-resolved cluster id make construction fail. -/
theorem c7_witness :
    missingRoleProps.executionRole = none ∧
    isEncodedJsonPath missingRoleProps.virtualClusterId = true ∧
    ∃ e, mkEmrContainersStartJobRun exampleCtx missingRoleProps = .error e :=
  ⟨rfl, rfl, c7_missing_execution_role.2.2 exampleCtx missingRoleProps rfl rfl⟩

/-- Claim C2 (amended): for a present literal string-array
`entryPointArguments` value, the length check succeeds exactly when the
array's element count lies in [1, 10280], and fails with the length error
exactly when the count is 0 or above 10280 — the bound measures the
element count, not the serialized size; a literal value that is not an
array of strings fails the type check with the type error. -/
theorem c2_entry_point_arguments :
    (∀ (props : EmrContainersStartJobRunProps) (d : SparkSubmitJobDriver)
        (xs : List JSVal),
      props.jobDriver.sparkSubmitJobDriver = some d →
      d.entryPointArguments = some (.arr xs) →
      isArrayOfStrings (.arr xs) = true →
      ((validateEntryPointArgumentsLength props = .ok ()) ↔
        (1 ≤ xs.length ∧ xs.length ≤ 10280)) ∧
      ((validateEntryPointArgumentsLength props =
          .error (entryPointArgumentsLengthMsg (toString xs.length))) ↔
        (xs.length = 0 ∨ 10280 < xs.length))) ∧
    (∀ (props : EmrContainersStartJobRunProps) (d : SparkSubmitJobDriver)
        (v : JSVal),
      props.jobDriver.sparkSubmitJobDriver = some d →
      d.entryPointArguments = some v →
      isArrayOfStrings v = false →
      isEncodedJsonPath v = false →
      validateEntryPointArgumentsType props =
        .error (entryPointArgumentsTypeMsg (jsTypeName v))) := by
  constructor
  · intro props d xs hd ha _hstr
    simp only [validateEntryPointArgumentsLength, hd, ha, isEncodedJsonPath,
      jsLengthGt, jsLengthLt, jsLength, jsLengthStr, Bool.not_false,
      Bool.and_true, Bool.or_eq_true, decide_eq_true_eq]
    constructor
    · by_cases hc : 10280 < xs.length ∨ xs.length < 1
      · rw [if_pos hc]; exact iff_of_false (by simp) (by omega)
      · rw [if_neg hc]; exact iff_of_true rfl (by omega)
    · by_cases hc : 10280 < xs.length ∨ xs.length < 1
      · rw [if_pos hc]; exact iff_of_true rfl (by omega)
      · rw [if_neg hc]; exact iff_of_false (by simp) (by omega)
  · intro props d v hd ha ht hp
    simp [validateEntryPointArgumentsType, hd, ha, ht, hp]

/-- Claim C2, counterexample: for the empty literal array (an array of
strings whose serialized size, 2 characters, is inside [1, 10280]), the
length check nevertheless fails — it measures the element count 0, so
failing is not equivalent to the serialized size being out of bounds. -/
theorem c2_counterexample :
    ¬ ((validateEntryPointArgumentsLength emptyArgsProps =
        .error (entryPointArgumentsLengthMsg "0")) ↔
      (serializedSize (.arr []) < 1 ∨ 10280 < serializedSize (.arr []))) := by
  intro hiff
  have h1 : validateEntryPointArgumentsLength emptyArgsProps =
      .error (entryPointArgumentsLengthMsg "0") := rfl
  have h2 := hiff.mp h1
  have h3 : serializedSize (.arr []) = 2 := rfl
  rw [h3] at h2
  omega

/-- Claim C2, witness: a one-element string array passes the length check,
and a plain-string literal fails the type check with the type error. -/
theorem c2_witness :
    validateEntryPointArgumentsLength oneArgProps = .ok () ∧
    validateEntryPointArgumentsType badTypeArgsProps =
      .error (entryPointArgumentsTypeMsg "string") :=
  ⟨(c2_entry_point_arguments.1 oneArgProps ⟨.str "job.py", some (.arr [.str "a"]), none⟩
      [.str "a"] rfl rfl rfl).1.mpr (by decide),
   c2_entry_point_arguments.2 badTypeArgsProps
     ⟨.str "job.py", some (.str "oops"), none⟩ (.str "oops") rfl rfl rfl rfl⟩

/-- Claim C8: a configuration list with more than 100 entries is rejected —
also when the oversized level sits below the top — and a node's property
mapping with more than 100 entries is rejected; the array message carries
the actual size, but the properties message reads "undefined" where the
actual size should appear, because the source interpolates a `.length`
property access on a plain object. -/
theorem c8_app_config_bounds :
    validateAppConfigLength (some overPropsConfig) =
      .error appConfigPropertiesLengthMsg ∧
    validateAppConfigLength (some overNestedConfig) =
      .error (appConfigArrayLengthMsg 101) ∧
    validateAppConfigLength (some manyConfigs) =
      .error (appConfigArrayLengthMsg 101) ∧
    appConfigPropertiesLengthMsg =
      "Application configuration properties must have 100 or fewer entries. Received undefined" ∧
    appConfigArrayLengthMsg 101 =
      "Application configuration array must have 100 or fewer entries. Received 101" := by
  refine ⟨?_, ?_, ?_, rfl, rfl⟩
  · rw [validateAppConfigLength]
    simp [overPropsConfig, validateEachProperties, validateEachNested,
      validateAppConfigPropertiesLength, ApplicationConfiguration.properties,
      manyProperties, error_bind, ok_bind]
  · have hlen : manyConfigs.length = 101 := by simp [manyConfigs]
    rw [validateAppConfigLength]
    simp [overNestedConfig, validateEachProperties, validateEachNested,
      validateAppConfigPropertiesLength, validateAppConfigLength, hlen,
      ApplicationConfiguration.properties, error_bind, ok_bind]
  · rw [validateAppConfigLength]
    norm_num [manyConfigs]

/-- Claim C4 (amended): a present tag mapping is rendered as an ordered
sequence of `{Key, Value}` pairs in the mapping's insertion order, but the
sequence is wrapped in an additional nested object: the tags wire key holds
an object whose inner `Tags` key holds the pair sequence, rather than
holding the sequence directly. -/
theorem c4_tags_rendering :
    ∀ (ctx : StackContext) (props : EmrContainersStartJobRunProps)
      (ts : List (String × String)),
      props.tags = some ts →
      ((startJobRunParameters ctx props).lookupKey
          "ConfigurationOverrides").bind (fun j => j.lookupKey "Tags") =
        some (.obj [("Tags", .arr (ts.map fun kv =>
          .obj [("Key", .str kv.1), ("Value", .str kv.2)]))]) := by
  intro ctx props ts htags
  cases hvc : props.virtualClusterId <;>
  cases hname2 : props.jobName <;>
  cases happ : props.applicationConfig <;>
    simp [startJobRunParameters, taskParametersRaw, renderObject, renderSeq,
      renderFields, jsonKey, isEncodedJsonPath, JsonV.lookupKey,
      JsonV.lookupKey.lookupField, renderTags, renderSeq_tag_pairs, htags,
      hvc, hname2, happ]

/-- Claim C4, counterexample: for the concrete two-tag mapping, the value
under the tags wire key is an object wrapping the pair sequence under an
inner `Tags` key — not the pair sequence itself, as the claim asserts. -/
theorem c4_counterexample :
    ((startJobRunParameters exampleCtx taggedProps).lookupKey
        "ConfigurationOverrides").bind (fun j => j.lookupKey "Tags") =
      some (.obj [("Tags", .arr
        [.obj [("Key", .str "team"), ("Value", .str "data")],
         .obj [("Key", .str "env"), ("Value", .str "prod")]])]) ∧
    JsonV.obj [("Tags", .arr
        [.obj [("Key", .str "team"), ("Value", .str "data")],
         .obj [("Key", .str "env"), ("Value", .str "prod")]])] ≠
      JsonV.arr
        [.obj [("Key", .str "team"), ("Value", .str "data")],
         .obj [("Key", .str "env"), ("Value", .str "prod")]] :=
  ⟨rfl, fun h => JsonV.noConfusion h⟩

/-- Claim C4, witness: the amended rendering at the concrete two-tag
mapping, in insertion order. -/
theorem c4_witness :
    ((startJobRunParameters exampleCtx taggedProps).lookupKey
        "ConfigurationOverrides").bind (fun j => j.lookupKey "Tags") =
      some (.obj [("Tags", .arr
        ([("team", "data"), ("env", "prod")].map fun kv =>
          .obj [("Key", .str kv.1), ("Value", .str kv.2)]))]) :=
  c4_tags_rendering exampleCtx taggedProps [("team", "data"), ("env", "prod")]
    rfl

end EmrContainers
